import Mathlib

/-!
Verification of the izumi text-to-SQL library core against its
natural-language specification.

The development shallowly embeds the relevant parts of the source:

* `MemoryVectorStore` (src/vector/MemoryVectorStore.ts): the three
  in-memory collections, cosine similarity, similarity-ranked retrieval,
  snapshot retrieval, and the export/import round trip.
* `IzumiBase` (base class of the orchestrator): `ask`, `train`,
  `extractSQL`, `parseGeneratedQuestions` and the deduplication loop of
  `generateTrainingDataFromSchema`.

JavaScript numbers are modelled by the real numbers.  Asynchronous calls
to external collaborators (the embedding provider, the chat model, the
injected `runSQL` callback) are modelled as explicit oracle functions
returning `Except String α`: an `Except.error` outcome models a rejected
promise (a thrown exception).  Stateful code is modelled by explicit
state passing over the store record.
-/

/-- One stored question/SQL pair (interface `QuestionSQLPair`): all of
`id` and `embedding` are optional in the source typings. -/
structure QuestionSQLPair where
  id : Option String
  question : String
  sql : String
  embedding : Option (List ℝ)

/-- One stored DDL fragment (interface `DDLItem`). -/
structure DDLItem where
  id : Option String
  ddl : String
  table_name : Option String
  embedding : Option (List ℝ)

/-- One stored documentation fragment (interface `DocumentationItem`). -/
structure DocumentationItem where
  id : Option String
  documentation : String
  title : Option String
  embedding : Option (List ℝ)

/-- Sum of squares of the entries of a vector: the `normA`/`normB`
accumulator of `MemoryVectorStore.cosineSimilarity`. -/
def sqSum : List ℝ → ℝ
  | [] => 0
  | x :: xs => x * x + sqSum xs

/-- Dot product accumulator of `MemoryVectorStore.cosineSimilarity`
(the loop runs over indices `0 ≤ i < vecA.length`; the lengths are equal
whenever the loop is reached, so pointwise recursion is faithful). -/
def dotList : List ℝ → List ℝ → ℝ
  | x :: xs, y :: ys => x * y + dotList xs ys
  | _, _ => 0

/-- Embedding of `MemoryVectorStore.cosineSimilarity`: vectors of
unequal length give 0; if either sum of squares is 0 the result is 0;
otherwise `dot / (sqrt normA * sqrt normB)`. -/
noncomputable def cosineSimilarity (vecA vecB : List ℝ) : ℝ :=
  if vecA.length = vecB.length then
    if sqSum vecA = 0 ∨ sqSum vecB = 0 then 0
    else dotList vecA vecB / (Real.sqrt (sqSum vecA) * Real.sqrt (sqSum vecB))
  else 0

theorem sqSum_nonneg (v : List ℝ) : 0 ≤ sqSum v := by
  induction v with
  | nil => simp [sqSum]
  | cons x xs ih => simpa [sqSum] using add_nonneg (mul_self_nonneg x) ih

theorem sqSum_pos_of_mem_ne_zero {v : List ℝ} {x : ℝ} (hx : x ∈ v) (hne : x ≠ 0) :
    0 < sqSum v := by
  induction v with
  | nil => cases hx
  | cons y ys ih =>
    rcases List.mem_cons.mp hx with h | h
    · subst h
      exact add_pos_of_pos_of_nonneg (mul_self_pos.mpr hne) (sqSum_nonneg ys)
    · exact add_pos_of_nonneg_of_pos (mul_self_nonneg y) (ih h)

theorem dotList_self (v : List ℝ) : dotList v v = sqSum v := by
  induction v with
  | nil => rfl
  | cons x xs ih => simp [dotList, sqSum, ih]

theorem dotList_comm (a b : List ℝ) : dotList a b = dotList b a := by
  induction a generalizing b with
  | nil => cases b <;> rfl
  | cons x xs ih =>
    cases b with
    | nil => rfl
    | cons y ys => simp [dotList, ih, mul_comm]

theorem sqSum_replicate_zero (n : Nat) : sqSum (List.replicate n 0) = 0 := by
  induction n with
  | zero => rfl
  | succ k ih => simp [List.replicate, sqSum, ih]

/-- Claim C5: the cosine similarity of the in-memory store satisfies:
`cosineSimilarity v v = 1` for every vector with a non-zero entry;
the similarity of any vector against the zero vector of equal length is
0 (not an error); the similarity is symmetric; and vectors of unequal
length have similarity 0. -/
theorem cosineSimilarity_spec :
    (∀ v : List ℝ, (∃ x ∈ v, x ≠ 0) → cosineSimilarity v v = 1) ∧
    (∀ v : List ℝ, cosineSimilarity v (List.replicate v.length 0) = 0) ∧
    (∀ a b : List ℝ, cosineSimilarity a b = cosineSimilarity b a) ∧
    (∀ a b : List ℝ, a.length ≠ b.length → cosineSimilarity a b = 0) := by
  refine ⟨?_, ?_, ?_, ?_⟩
  · intro v hv
    obtain ⟨x, hx, hne⟩ := hv
    have hpos : 0 < sqSum v := sqSum_pos_of_mem_ne_zero hx hne
    have hnz : ¬(sqSum v = 0 ∨ sqSum v = 0) := by
      simp [ne_of_gt hpos]
    rw [cosineSimilarity, if_pos rfl, if_neg hnz, dotList_self]
    rw [Real.mul_self_sqrt (le_of_lt hpos)]
    exact div_self (ne_of_gt hpos)
  · intro v
    rw [cosineSimilarity, if_pos (by simp), if_pos (by simp [sqSum_replicate_zero])]
  · intro a b
    by_cases h : a.length = b.length
    · rw [cosineSimilarity, cosineSimilarity, if_pos h, if_pos h.symm]
      by_cases hz : sqSum a = 0 ∨ sqSum b = 0
      · rw [if_pos hz, if_pos (Or.symm hz)]
      · rw [if_neg hz, if_neg (fun hh => hz (Or.symm hh)), dotList_comm, mul_comm]
    · rw [cosineSimilarity, cosineSimilarity, if_neg h, if_neg (fun hh => h hh.symm)]
  · intro a b h
    rw [cosineSimilarity, if_neg h]

/-- Concrete instantiation of `cosineSimilarity_spec` discharging its
hypotheses: the one-entry vector `[1]` is non-zero, and `[1]` and
`[1, 1]` have unequal lengths. -/
theorem cosineSimilarity_spec_witness :
    cosineSimilarity [(1 : ℝ)] [(1 : ℝ)] = 1 ∧
    cosineSimilarity [(1 : ℝ)] [(1 : ℝ), 1] = 0 :=
  ⟨cosineSimilarity_spec.1 [(1 : ℝ)] ⟨1, by simp⟩,
   cosineSimilarity_spec.2.2.2 [(1 : ℝ)] [(1 : ℝ), 1] (by simp)⟩

/-- The three in-memory collections of `MemoryVectorStore`. -/
structure MemStore where
  questionSQLPairs : List QuestionSQLPair
  ddlItems : List DDLItem
  documentationItems : List DocumentationItem

/-- Keyed list built by the similarity getters of `MemoryVectorStore`:
keep only items with an embedding (`.filter(item => item.embedding)`),
and pair each with its cosine similarity to the query embedding. -/
noncomputable def keyedOf {α : Type} (query : List ℝ) (emb : α → Option (List ℝ))
    (items : List α) : List (α × ℝ) :=
  (items.filter (fun it => (emb it).isSome)).map
    (fun it => (it, cosineSimilarity query ((emb it).getD [])))

/-- Shared body of `getSimilarQuestionSQL` / `getRelatedDDL` /
`getRelatedDocumentation`: filter items having an embedding, key each by
cosine similarity, sort descending by similarity, truncate to `limit`,
return the items.  The ECMAScript 2019 `Array.prototype.sort` is
required to be stable, which `List.mergeSort` models. -/
noncomputable def rankBySimilarity {α : Type} (query : List ℝ) (emb : α → Option (List ℝ))
    (items : List α) (limit : Nat) : List α :=
  (((keyedOf query emb items).mergeSort (fun a b => decide (b.2 ≤ a.2))).take limit).map
    Prod.fst

theorem rankBySimilarity_spec {α : Type} (query : List ℝ) (emb : α → Option (List ℝ))
    (items : List α) (limit : Nat) :
    ∃ ranked : List (α × ℝ),
      rankBySimilarity query emb items limit = (ranked.take limit).map Prod.fst ∧
      ranked.Perm (keyedOf query emb items) ∧
      ranked.Pairwise (fun a b => b.2 ≤ a.2) ∧
      ∀ c : List (α × ℝ), c.Pairwise (fun a b => b.2 ≤ a.2) →
        c.Sublist (keyedOf query emb items) → c.Sublist ranked := by
  have htrans : ∀ a b c : α × ℝ,
      (fun a b : α × ℝ => decide (b.2 ≤ a.2)) a b →
      (fun a b : α × ℝ => decide (b.2 ≤ a.2)) b c →
      (fun a b : α × ℝ => decide (b.2 ≤ a.2)) a c := by
    intro a b c hab hbc
    simp only [decide_eq_true_eq] at *
    exact le_trans hbc hab
  have htotal : ∀ a b : α × ℝ,
      ((fun a b : α × ℝ => decide (b.2 ≤ a.2)) a b ||
       (fun a b : α × ℝ => decide (b.2 ≤ a.2)) b a) := by
    intro a b
    simp only [Bool.or_eq_true, decide_eq_true_eq]
    exact le_total _ _
  refine ⟨(keyedOf query emb items).mergeSort (fun a b => decide (b.2 ≤ a.2)),
    rfl, List.mergeSort_perm _ _, ?_, ?_⟩
  · exact (List.sorted_mergeSort htrans htotal _).imp (fun h => of_decide_eq_true h)
  · intro c hcp hcs
    exact List.sublist_mergeSort htrans htotal (hcp.imp (fun h => decide_eq_true h)) hcs

/-- Embedding of `MemoryVectorStore.getSimilarQuestionSQL` with an
explicit `limit` argument. -/
noncomputable def MemStore.getSimilarQuestionSQLLim (st : MemStore) (queryEmbedding : List ℝ)
    (limit : Nat) : List QuestionSQLPair :=
  rankBySimilarity queryEmbedding (fun it => it.embedding) st.questionSQLPairs limit

/-- Embedding of `MemoryVectorStore.getSimilarQuestionSQL` at its
default limit 5. -/
noncomputable def MemStore.getSimilarQuestionSQL (st : MemStore)
    (queryEmbedding : List ℝ) : List QuestionSQLPair :=
  st.getSimilarQuestionSQLLim queryEmbedding 5

/-- Embedding of `MemoryVectorStore.getRelatedDDL` with an explicit
`limit` argument. -/
noncomputable def MemStore.getRelatedDDLLim (st : MemStore) (queryEmbedding : List ℝ)
    (limit : Nat) : List DDLItem :=
  rankBySimilarity queryEmbedding (fun it => it.embedding) st.ddlItems limit

/-- Embedding of `MemoryVectorStore.getRelatedDDL` at its default
limit 10. -/
noncomputable def MemStore.getRelatedDDL (st : MemStore) (queryEmbedding : List ℝ) :
    List DDLItem :=
  st.getRelatedDDLLim queryEmbedding 10

/-- Embedding of `MemoryVectorStore.getRelatedDocumentation` with an
explicit `limit` argument. -/
noncomputable def MemStore.getRelatedDocumentationLim (st : MemStore)
    (queryEmbedding : List ℝ) (limit : Nat) : List DocumentationItem :=
  rankBySimilarity queryEmbedding (fun it => it.embedding) st.documentationItems limit

/-- Embedding of `MemoryVectorStore.getRelatedDocumentation` at its
default limit 5. -/
noncomputable def MemStore.getRelatedDocumentation (st : MemStore)
    (queryEmbedding : List ℝ) : List DocumentationItem :=
  st.getRelatedDocumentationLim queryEmbedding 5

/-- Claim C4: each similarity getter returns the item part of a prefix
of length `limit` of a ranking of the embedded items that is a
permutation of the keyed item list, is sorted by non-increasing cosine
similarity, and is stable (every similarity-sorted sublist of the keyed
list, in particular any equal-similarity pair in insertion order,
remains a sublist of the ranking); items without an embedding are
excluded by `keyedOf`, and the default limits are 5 for question/SQL,
10 for DDL, and 5 for documentation. -/
theorem similaritySearch_spec :
    (∀ (st : MemStore) (q : List ℝ) (limit : Nat),
      ∃ ranked : List (QuestionSQLPair × ℝ),
        st.getSimilarQuestionSQLLim q limit = (ranked.take limit).map Prod.fst ∧
        ranked.Perm (keyedOf q (fun it => it.embedding) st.questionSQLPairs) ∧
        ranked.Pairwise (fun a b => b.2 ≤ a.2) ∧
        ∀ c : List (QuestionSQLPair × ℝ), c.Pairwise (fun a b => b.2 ≤ a.2) →
          c.Sublist (keyedOf q (fun it => it.embedding) st.questionSQLPairs) →
          c.Sublist ranked) ∧
    (∀ (st : MemStore) (q : List ℝ),
      st.getSimilarQuestionSQL q = st.getSimilarQuestionSQLLim q 5) ∧
    (∀ (st : MemStore) (q : List ℝ) (limit : Nat),
      ∃ ranked : List (DDLItem × ℝ),
        st.getRelatedDDLLim q limit = (ranked.take limit).map Prod.fst ∧
        ranked.Perm (keyedOf q (fun it => it.embedding) st.ddlItems) ∧
        ranked.Pairwise (fun a b => b.2 ≤ a.2) ∧
        ∀ c : List (DDLItem × ℝ), c.Pairwise (fun a b => b.2 ≤ a.2) →
          c.Sublist (keyedOf q (fun it => it.embedding) st.ddlItems) →
          c.Sublist ranked) ∧
    (∀ (st : MemStore) (q : List ℝ),
      st.getRelatedDDL q = st.getRelatedDDLLim q 10) ∧
    (∀ (st : MemStore) (q : List ℝ) (limit : Nat),
      ∃ ranked : List (DocumentationItem × ℝ),
        st.getRelatedDocumentationLim q limit = (ranked.take limit).map Prod.fst ∧
        ranked.Perm (keyedOf q (fun it => it.embedding) st.documentationItems) ∧
        ranked.Pairwise (fun a b => b.2 ≤ a.2) ∧
        ∀ c : List (DocumentationItem × ℝ), c.Pairwise (fun a b => b.2 ≤ a.2) →
          c.Sublist (keyedOf q (fun it => it.embedding) st.documentationItems) →
          c.Sublist ranked) ∧
    (∀ (st : MemStore) (q : List ℝ),
      st.getRelatedDocumentation q = st.getRelatedDocumentationLim q 5) :=
  ⟨fun st q limit =>
      rankBySimilarity_spec q (fun it : QuestionSQLPair => it.embedding) st.questionSQLPairs limit,
   fun _ _ => rfl,
   fun st q limit =>
      rankBySimilarity_spec q (fun it : DDLItem => it.embedding) st.ddlItems limit,
   fun _ _ => rfl,
   fun st q limit =>
      rankBySimilarity_spec q (fun it : DocumentationItem => it.embedding) st.documentationItems limit,
   fun _ _ => rfl⟩

/-- Concrete consequence of `similaritySearch_spec` at the empty store:
searching an empty collection returns the empty list. -/
theorem similaritySearch_spec_witness :
    (MemStore.mk [] [] []).getSimilarQuestionSQLLim [(1 : ℝ)] 5 = [] := by
  obtain ⟨ranked, h1, h2, -, -⟩ :=
    similaritySearch_spec.1 (MemStore.mk [] [] []) [(1 : ℝ)] 5
  have hr : ranked = [] := List.perm_nil.mp h2
  rw [h1, hr]
  rfl

/-- Structured content of the JSON string produced by
`MemoryVectorStore.export` (the serialization through `JSON.stringify` /
`JSON.parse` is modelled as the identity on this record, which is what
the round trip computes for these plain data records). -/
structure ExportData where
  questionSQLPairs : List QuestionSQLPair
  ddlItems : List DDLItem
  documentationItems : List DocumentationItem
  exportedAt : String

/-- Structured content of the JSON string consumed by
`MemoryVectorStore.import`: each section is checked with JavaScript
truthiness (`if (data.questionSQLPairs)`), so `none` models a section
that is absent (or `null`) and is skipped. -/
structure ImportData where
  questionSQLPairs : Option (List QuestionSQLPair)
  ddlItems : Option (List DDLItem)
  documentationItems : Option (List DocumentationItem)

/-- Embedding of `MemoryVectorStore.export`: serialize the three
collections plus a timestamp (`new Date().toISOString()` is passed in
as `now`). -/
def MemStore.exportData (st : MemStore) (now : String) : ExportData :=
  { questionSQLPairs := st.questionSQLPairs
    ddlItems := st.ddlItems
    documentationItems := st.documentationItems
    exportedAt := now }

/-- Exported data seen as import input: every section is present. -/
def ExportData.asImport (d : ExportData) : ImportData :=
  { questionSQLPairs := some d.questionSQLPairs
    ddlItems := some d.ddlItems
    documentationItems := some d.documentationItems }

/-- Embedding of `MemoryVectorStore.import`: each collection is
replaced wholesale when the corresponding section is present, and left
untouched otherwise. -/
def MemStore.importData (st : MemStore) (d : ImportData) : MemStore :=
  let st1 := match d.questionSQLPairs with
    | some l => { st with questionSQLPairs := l }
    | none => st
  let st2 := match d.ddlItems with
    | some l => { st1 with ddlItems := l }
    | none => st1
  match d.documentationItems with
  | some l => { st2 with documentationItems := l }
  | none => st2

/-- Claim C8: `import(export())` reproduces the same items (ids,
contents and embeddings included) in all three collections, into any
target store; and `import` replaces a collection wholesale exactly when
the corresponding section is present in the input, leaving it untouched
otherwise. -/
theorem exportImport_spec :
    (∀ (st target : MemStore) (now : String),
      target.importData ((st.exportData now).asImport) = st) ∧
    (∀ (st : MemStore) (d : ImportData),
      (∀ l, d.questionSQLPairs = some l → (st.importData d).questionSQLPairs = l) ∧
      (d.questionSQLPairs = none →
        (st.importData d).questionSQLPairs = st.questionSQLPairs) ∧
      (∀ l, d.ddlItems = some l → (st.importData d).ddlItems = l) ∧
      (d.ddlItems = none → (st.importData d).ddlItems = st.ddlItems) ∧
      (∀ l, d.documentationItems = some l → (st.importData d).documentationItems = l) ∧
      (d.documentationItems = none →
        (st.importData d).documentationItems = st.documentationItems)) := by
  constructor
  · intro st target now
    cases st
    rfl
  · intro st d
    obtain ⟨q, dd, doc⟩ := d
    refine ⟨?_, ?_, ?_, ?_, ?_, ?_⟩ <;>
      cases q <;> cases dd <;> cases doc <;> simp [MemStore.importData]
/-- Concrete instantiation of `exportImport_spec` discharging its
hypotheses: importing a one-pair export into an empty store restores
the pair, and an all-absent import leaves a store untouched. -/
theorem exportImport_spec_witness :
    ((MemStore.mk [] [] []).importData
      (((MemStore.mk [⟨some "qs-1", "q", "s", none⟩] [] []).exportData "t").asImport)) =
      MemStore.mk [⟨some "qs-1", "q", "s", none⟩] [] [] ∧
    ((MemStore.mk [⟨some "qs-1", "q", "s", none⟩] [] []).importData
      (ImportData.mk none none none)).questionSQLPairs = [⟨some "qs-1", "q", "s", none⟩] :=
  ⟨exportImport_spec.1 (MemStore.mk [⟨some "qs-1", "q", "s", none⟩] [] [])
      (MemStore.mk [] [] []) "t",
   (exportImport_spec.2 (MemStore.mk [⟨some "qs-1", "q", "s", none⟩] [] [])
      (ImportData.mk none none none)).2.1 rfl⟩

/-- Heap modelling the JavaScript reference semantics needed by
`MemoryVectorStore.getTrainingData`: item objects and array objects
live in a heap and are addressed by index; an array object holds the
addresses of its elements.  The store itself holds the addresses of its
three internal arrays. -/
structure VSHeap where
  qsObjs : List QuestionSQLPair
  ddlObjs : List DDLItem
  docObjs : List DocumentationItem
  arrays : List (List Nat)

/-- Addresses of the three internal arrays of one `MemoryVectorStore`
instance. -/
structure VSRefs where
  qsArr : Nat
  ddlArr : Nat
  docArr : Nat

/-- Contents of the array object at address `a`. -/
def arrGet (h : VSHeap) (a : Nat) : List Nat :=
  h.arrays.getD a []

/-- Addresses of the three arrays handed back by `getTrainingData`. -/
structure Snapshot where
  questionSQL : Nat
  ddl : Nat
  documentation : Nat

/-- Embedding of `MemoryVectorStore.getTrainingData`: allocate three
fresh array objects (`[...this.questionSQLPairs]` and friends), each a
copy of the store's array contents — element-wise the same item
references — and return their addresses. -/
def getTrainingDataH (st : VSRefs) (h : VSHeap) : Snapshot × VSHeap :=
  (⟨h.arrays.length, h.arrays.length + 1, h.arrays.length + 2⟩,
   { h with arrays :=
      h.arrays ++ [arrGet h st.qsArr, arrGet h st.ddlArr, arrGet h st.docArr] })

/-- Caller-side mutation of an array object (push/pop/splice or
wholesale reassignment of its contents). -/
def writeArr (h : VSHeap) (a : Nat) (l : List Nat) : VSHeap :=
  { h with arrays := h.arrays.set a l }

/-- Caller-side mutation of a question/SQL item object (for example
`snapshot.questionSQL[0].question = "..."`). -/
def writeQsObj (h : VSHeap) (i : Nat) (v : QuestionSQLPair) : VSHeap :=
  { h with qsObjs := h.qsObjs.set i v }

/-- The store's question/SQL collection as the list of items its
internal array points at. -/
def qsView (st : VSRefs) (h : VSHeap) : List QuestionSQLPair :=
  (arrGet h st.qsArr).filterMap (fun i => h.qsObjs[i]?)

/-- The store's DDL collection as the list of items its internal array
points at. -/
def ddlView (st : VSRefs) (h : VSHeap) : List DDLItem :=
  (arrGet h st.ddlArr).filterMap (fun i => h.ddlObjs[i]?)

/-- The store's documentation collection as the list of items its
internal array points at. -/
def docView (st : VSRefs) (h : VSHeap) : List DocumentationItem :=
  (arrGet h st.docArr).filterMap (fun i => h.docObjs[i]?)

/-- The question/SQL items a caller reads through a snapshot. -/
def snapQsView (sn : Snapshot) (h : VSHeap) : List QuestionSQLPair :=
  (arrGet h sn.questionSQL).filterMap (fun i => h.qsObjs[i]?)

/-- The DDL items a caller reads through a snapshot. -/
def snapDdlView (sn : Snapshot) (h : VSHeap) : List DDLItem :=
  (arrGet h sn.ddl).filterMap (fun i => h.ddlObjs[i]?)

/-- The documentation items a caller reads through a snapshot. -/
def snapDocView (sn : Snapshot) (h : VSHeap) : List DocumentationItem :=
  (arrGet h sn.documentation).filterMap (fun i => h.docObjs[i]?)

/-- The store's three internal arrays are allocated in the heap. -/
def VSRefs.Valid (st : VSRefs) (h : VSHeap) : Prop :=
  st.qsArr < h.arrays.length ∧ st.ddlArr < h.arrays.length ∧ st.docArr < h.arrays.length

/-- Claim C7, amended: two `getTrainingData` calls without an
intervening mutation yield snapshots with equal contents, and replacing
the contents of any snapshot array object leaves all three collections
of the store unchanged (the returned arrays are fresh copies).  The
original claim's assertion that mutating the item objects inside a
snapshot also leaves the store unchanged is refuted by
`getTrainingData_counterexample`: the copy is shallow, so item objects
are shared by reference. -/
theorem arrGet_extend_lt {h : VSHeap} {x : Nat} (hx : x < h.arrays.length)
    (l2 : List (List Nat)) :
    arrGet { h with arrays := h.arrays ++ l2 } x = arrGet h x :=
  List.getD_append _ _ _ _ hx

theorem arrGet_extend_at0 (h : VSHeap) (A B C : List Nat) :
    arrGet { h with arrays := h.arrays ++ [A, B, C] } h.arrays.length = A := by
  show (h.arrays ++ [A, B, C]).getD h.arrays.length [] = A
  rw [List.getD_append_right _ _ _ _ (le_refl _), Nat.sub_self]
  rfl

theorem arrGet_extend_at1 (h : VSHeap) (A B C : List Nat) :
    arrGet { h with arrays := h.arrays ++ [A, B, C] } (h.arrays.length + 1) = B := by
  show (h.arrays ++ [A, B, C]).getD (h.arrays.length + 1) [] = B
  rw [List.getD_append_right _ _ _ _ (Nat.le_add_right _ _), Nat.add_sub_cancel_left]
  rfl

theorem arrGet_extend_at2 (h : VSHeap) (A B C : List Nat) :
    arrGet { h with arrays := h.arrays ++ [A, B, C] } (h.arrays.length + 2) = C := by
  show (h.arrays ++ [A, B, C]).getD (h.arrays.length + 2) [] = C
  rw [List.getD_append_right _ _ _ _ (Nat.le_add_right _ _), Nat.add_sub_cancel_left]
  rfl

theorem arrGet_writeArr_ne (h : VSHeap) (a b : Nat) (l : List Nat) (hne : a ≠ b) :
    arrGet (writeArr h a l) b = arrGet h b := by
  show (h.arrays.set a l).getD b [] = h.arrays.getD b []
  rw [List.getD_eq_getElem?_getD, List.getD_eq_getElem?_getD, List.getElem?_set_ne hne]

/-- Claim C7, amended: two `getTrainingData` calls without an
intervening mutation yield snapshots with equal contents, and replacing
the contents of any snapshot array object leaves all three collections
of the store unchanged (the returned arrays are fresh copies).  The
original claim also asserts that mutating the item objects inside a
snapshot leaves the store unchanged; that part is refuted by
`getTrainingData_counterexample`: the copy is shallow, so item objects
are shared by reference. -/
theorem getTrainingData_spec (st : VSRefs) (h : VSHeap) (hv : st.Valid h)
    (sn1 : Snapshot) (h1 : VSHeap) (e1 : getTrainingDataH st h = (sn1, h1))
    (sn2 : Snapshot) (h2 : VSHeap) (e2 : getTrainingDataH st h1 = (sn2, h2)) :
    (snapQsView sn1 h2 = snapQsView sn2 h2 ∧
     snapDdlView sn1 h2 = snapDdlView sn2 h2 ∧
     snapDocView sn1 h2 = snapDocView sn2 h2) ∧
    (∀ (a : Nat) (l : List Nat),
      (a = sn1.questionSQL ∨ a = sn1.ddl ∨ a = sn1.documentation) →
      qsView st (writeArr h1 a l) = qsView st h1 ∧
      ddlView st (writeArr h1 a l) = ddlView st h1 ∧
      docView st (writeArr h1 a l) = docView st h1) := by
  obtain ⟨hq, hd, hc⟩ := hv
  rw [getTrainingDataH] at e1 e2
  cases e1
  cases e2
  have hlen1 : ({ h with arrays :=
      h.arrays ++ [arrGet h st.qsArr, arrGet h st.ddlArr, arrGet h st.docArr] } :
      VSHeap).arrays.length = h.arrays.length + 3 := by
    simp
  constructor
  · have eq1 : arrGet { h with arrays :=
        h.arrays ++ [arrGet h st.qsArr, arrGet h st.ddlArr, arrGet h st.docArr] }
        st.qsArr = arrGet h st.qsArr := arrGet_extend_lt hq _
    have ed1 : arrGet { h with arrays :=
        h.arrays ++ [arrGet h st.qsArr, arrGet h st.ddlArr, arrGet h st.docArr] }
        st.ddlArr = arrGet h st.ddlArr := arrGet_extend_lt hd _
    have ec1 : arrGet { h with arrays :=
        h.arrays ++ [arrGet h st.qsArr, arrGet h st.ddlArr, arrGet h st.docArr] }
        st.docArr = arrGet h st.docArr := arrGet_extend_lt hc _
    refine ⟨?_, ?_, ?_⟩
    · show List.filterMap _ (arrGet _ h.arrays.length) =
        List.filterMap _ (arrGet _ _)
      rw [arrGet_extend_lt (x := h.arrays.length) (by rw [hlen1]; omega),
        arrGet_extend_at0, arrGet_extend_at0, eq1]
    · show List.filterMap _ (arrGet _ (h.arrays.length + 1)) =
        List.filterMap _ (arrGet _ _)
      rw [arrGet_extend_lt (x := h.arrays.length + 1) (by rw [hlen1]; omega),
        arrGet_extend_at1, arrGet_extend_at1, ed1]
    · show List.filterMap _ (arrGet _ (h.arrays.length + 2)) =
        List.filterMap _ (arrGet _ _)
      rw [arrGet_extend_lt (x := h.arrays.length + 2) (by rw [hlen1]; omega),
        arrGet_extend_at2, arrGet_extend_at2, ec1]
  · intro a l ha
    have ha3 : h.arrays.length ≤ a := by
      rcases ha with h1 | h1 | h1 <;> rw [h1] <;> dsimp only <;> omega
    refine ⟨?_, ?_, ?_⟩
    · show List.filterMap _ (arrGet (writeArr _ a l) st.qsArr) = List.filterMap _ (arrGet _ st.qsArr)
      rw [arrGet_writeArr_ne _ _ _ _ (by omega)]
      rfl
    · show List.filterMap _ (arrGet (writeArr _ a l) st.ddlArr) = List.filterMap _ (arrGet _ st.ddlArr)
      rw [arrGet_writeArr_ne _ _ _ _ (by omega)]
      rfl
    · show List.filterMap _ (arrGet (writeArr _ a l) st.docArr) = List.filterMap _ (arrGet _ st.docArr)
      rw [arrGet_writeArr_ne _ _ _ _ (by omega)]
      rfl

/-- Stored pair used in the claim C7 counterexample. -/
def pairBefore : QuestionSQLPair :=
  ⟨some "qs-1", "count users", "SELECT COUNT(*) FROM users;", none⟩

/-- The same item object after a caller mutates its question field. -/
def pairAfter : QuestionSQLPair :=
  ⟨some "qs-1", "mutated", "SELECT COUNT(*) FROM users;", none⟩

/-- Heap with a one-pair store for the claim C7 counterexample. -/
def heap0 : VSHeap := ⟨[pairBefore], [], [], [[0], [], []]⟩

/-- References of the store living in `heap0`. -/
def store0 : VSRefs := ⟨0, 1, 2⟩

/-- Claim C7, counterexample: the snapshot returned by
`getTrainingData` holds a reference to the stored item object (address
0), and mutating that item object through the snapshot changes the
store's question/SQL collection — the returned value does not protect
the internal state against item-level mutation. -/
theorem getTrainingData_counterexample :
    arrGet (getTrainingDataH store0 heap0).2 (getTrainingDataH store0 heap0).1.questionSQL
      = [0] ∧
    qsView store0 (writeQsObj (getTrainingDataH store0 heap0).2 0 pairAfter) ≠
      qsView store0 (getTrainingDataH store0 heap0).2 := by
  refine ⟨rfl, ?_⟩
  intro hEq
  have hafter : qsView store0 (writeQsObj (getTrainingDataH store0 heap0).2 0 pairAfter) =
      [pairAfter] := rfl
  have hbefore : qsView store0 (getTrainingDataH store0 heap0).2 = [pairBefore] := rfl
  rw [hafter, hbefore] at hEq
  have hq : pairAfter.question = pairBefore.question := by
    injection hEq with h1 h2
    rw [h1]
  exact absurd hq (by decide)

/-- Concrete instantiation of `getTrainingData_spec` discharging its
hypotheses at `store0`/`heap0`: replacing the contents of the snapshot's
question/SQL array object does not change the store's question/SQL
collection. -/
theorem getTrainingData_spec_witness :
    qsView store0 (writeArr (getTrainingDataH store0 heap0).2 3 []) =
      qsView store0 (getTrainingDataH store0 heap0).2 :=
  ((getTrainingData_spec store0 heap0 ⟨by decide, by decide, by decide⟩
      (getTrainingDataH store0 heap0).1 (getTrainingDataH store0 heap0).2 rfl
      (getTrainingDataH store0 (getTrainingDataH store0 heap0).2).1
      (getTrainingDataH store0 (getTrainingDataH store0 heap0).2).2 rfl).2
    3 [] (Or.inl rfl)).1

/-- JavaScript runtime value returned by the injected `runSQL` callback
(the shape is opaque to the core and only its truthiness is inspected);
numbers are modelled by ℚ, which has no NaN. -/
inductive JSValue where
  | vNull
  | vUndefined
  | vBool (b : Bool)
  | vNum (q : ℚ)
  | vStr (s : String)
  | vArr (elems : List JSValue)
  | vObj

/-- JavaScript truthiness: `null`, `undefined`, `false`, `0` and the
empty string are falsy; every object — including an empty array — is
truthy. -/
def JSValue.truthy : JSValue → Bool
  | .vNull => false
  | .vUndefined => false
  | .vBool b => b
  | .vNum q => q != 0
  | .vStr s => s != ""
  | .vArr _ => true
  | .vObj => true

/-- Oracles for the external collaborators of the orchestrator: the
embedding provider (`generateEmbedding`), the question synthesis model
call (`generateQuestion`), the table-name pattern match of `addDDL`
(`extractTableNameFromDDL`), and the id generator of the store
(`generateId`, `Date.now()` plus a random suffix in the source, supplied
here as a function of a prefix and a call counter). -/
structure Oracles where
  embed : String → Except String (List ℝ)
  genQuestion : String → Except String String
  extractTableName : String → Option String
  ids : String → Nat → String

/-- Embedding of `MemoryVectorStore.addQuestionSQL`: push the new pair
at the end of the collection. -/
def MemStore.addQuestionSQL (st : MemStore) (question sql : String)
    (embedding : List ℝ) (id : String) : MemStore :=
  { st with questionSQLPairs :=
      st.questionSQLPairs ++ [⟨some id, question, sql, some embedding⟩] }

/-- Embedding of `MemoryVectorStore.addDDL`. -/
def MemStore.addDDL (st : MemStore) (ddl : String) (embedding : List ℝ)
    (tableName : Option String) (id : String) : MemStore :=
  { st with ddlItems := st.ddlItems ++ [⟨some id, ddl, tableName, some embedding⟩] }

/-- Embedding of `MemoryVectorStore.addDocumentation`. -/
def MemStore.addDocumentation (st : MemStore) (documentation : String)
    (embedding : List ℝ) (title : Option String) (id : String) : MemStore :=
  { st with documentationItems :=
      st.documentationItems ++ [⟨some id, documentation, title, some embedding⟩] }

/-- Embedding of `Izumi.addQuestionSQL`: embed `` `${question} ${sql}` ``
then store; a failing embedding call rejects.  Returns the new id, the
new store and the next id counter. -/
def addQuestionSQLIz (O : Oracles) (question sql : String) (st : MemStore) (k : Nat) :
    Except String (String × MemStore × Nat) :=
  match O.embed (question ++ " " ++ sql) with
  | .error e => .error e
  | .ok emb => .ok (O.ids "qs" k, st.addQuestionSQL question sql emb (O.ids "qs" k), k + 1)

/-- Embedding of `Izumi.addDDL`: embed the DDL, extract a best-effort
table name, then store. -/
def addDDLIz (O : Oracles) (ddl : String) (st : MemStore) (k : Nat) :
    Except String (String × MemStore × Nat) :=
  match O.embed ddl with
  | .error e => .error e
  | .ok emb => .ok (O.ids "ddl" k, st.addDDL ddl emb (O.extractTableName ddl) (O.ids "ddl" k), k + 1)

/-- Embedding of `Izumi.addDocumentation`: embed the text then store. -/
def addDocumentationIz (O : Oracles) (documentation : String) (title : Option String)
    (st : MemStore) (k : Nat) : Except String (String × MemStore × Nat) :=
  match O.embed documentation with
  | .error e => .error e
  | .ok emb =>
      .ok (O.ids "doc" k, st.addDocumentation documentation emb title (O.ids "doc" k), k + 1)

/-- Result of a successful `generateSQL` call (abstracted as an oracle
outcome when modelling `ask`). -/
structure GenResult where
  sql : String
  explanation : Option String

/-- Return value of `IzumiBase.ask`. -/
structure AskResponse where
  sql : Option String
  results : Option JSValue
  explanation : Option String

/-- Embedding of `IzumiBase.ask`.  The `generateSQL` call is abstracted
as the oracle outcome `gen`.  The source wraps the whole body in a try
whose catch returns `{sql: null, results: null}`, and wraps the
`runSQL` call, the auto-train call and the success return in an inner
try whose catch returns the generated sql and explanation with
`results: null`; consequently `ask` never rejects, which this model
expresses by returning a plain (non-`Except`) response. -/
def ask (O : Oracles) (gen : Except String GenResult) (runSQLIsSet : Bool)
    (runSQL : String → Except String JSValue) (autoTrain : Bool)
    (question : String) (st : MemStore) (k : Nat) : AskResponse × MemStore × Nat :=
  match gen with
  | .error _ => (⟨none, none, none⟩, st, k)
  | .ok g =>
    if !runSQLIsSet then (⟨some g.sql, none, g.explanation⟩, st, k)
    else
      match runSQL g.sql with
      | .error _ => (⟨some g.sql, none, g.explanation⟩, st, k)
      | .ok results =>
        if results.truthy && autoTrain then
          match addQuestionSQLIz O question g.sql st k with
          | .ok (_, st2, k2) => (⟨some g.sql, some results, g.explanation⟩, st2, k2)
          | .error _ => (⟨some g.sql, none, g.explanation⟩, st, k)
        else (⟨some g.sql, some results, g.explanation⟩, st, k)

/-- Concrete oracles whose external calls all succeed. -/
def oracleOK : Oracles :=
  ⟨fun _ => .ok [1], fun _ => .ok "generated question", fun _ => none,
   fun p k => p ++ "-" ++ toString k⟩

/-- Concrete oracles whose embedding call rejects (a failing embedding
provider), everything else as in `oracleOK`. -/
def oracleFail : Oracles :=
  ⟨fun _ => .error "embedding failed", fun _ => .ok "generated question", fun _ => none,
   fun p k => p ++ "-" ++ toString k⟩

/-- Claim C6: when SQL generation succeeds and the configured `runSQL`
callback throws, `ask` catches the error and returns the generated sql
and explanation with null results, leaving the store untouched; it does
not reject (the model's return type is a plain response). -/
theorem ask_execFailure_spec (O : Oracles) (g : GenResult)
    (runSQL : String → Except String JSValue) (autoTrain : Bool) (question : String)
    (st : MemStore) (k : Nat) (e : String) (hr : runSQL g.sql = .error e) :
    ask O (.ok g) true runSQL autoTrain question st k =
      (⟨some g.sql, none, g.explanation⟩, st, k) := by
  simp [ask, hr]

/-- Concrete instantiation of `ask_execFailure_spec` discharging its
hypothesis with a callback that always throws. -/
theorem ask_execFailure_spec_witness :
    ask oracleOK (.ok ⟨"SELECT 1;", some "an explanation"⟩) true
      (fun _ => .error "connection lost") true "how many users" (MemStore.mk [] [] []) 0 =
      (⟨some "SELECT 1;", none, some "an explanation"⟩, MemStore.mk [] [] [], 0) :=
  ask_execFailure_spec oracleOK ⟨"SELECT 1;", some "an explanation"⟩
    (fun _ => .error "connection lost") true "how many users" (MemStore.mk [] [] []) 0
    "connection lost" rfl

/-- Claim C1, counterexample: with a successfully executing `runSQL`
(truthy result `[]`), `autoTrain` on, and a failing knowledge-store
write (the embedding call rejects), `ask` returns `results := none`
rather than the successful execution results `some (vArr [])` — the
storage failure does alter the returned response. -/
theorem ask_autoTrainFailure_counterexample :
    (ask oracleFail (.ok ⟨"SELECT 1;", some "an explanation"⟩) true
        (fun _ => .ok (.vArr [])) true "how many users" (MemStore.mk [] [] []) 0).1 =
      ⟨some "SELECT 1;", none, some "an explanation"⟩ ∧
    oracleFail.embed ("how many users" ++ " " ++ "SELECT 1;") = .error "embedding failed" :=
  ⟨rfl, rfl⟩

/-- Claim C1, amended: when a configured `runSQL` callback succeeds
with a truthy result, `autoTrain` is true, and the knowledge-store
write fails, `ask` still resolves (it does not reject) with the
generated sql and the explanation and an unchanged store, but the
returned `results` is null: the storage failure is handled by the same
catch as an execution failure and therefore does alter the returned
response. -/
theorem ask_autoTrainFailure_spec (O : Oracles) (g : GenResult)
    (runSQL : String → Except String JSValue) (question : String) (st : MemStore)
    (k : Nat) (r : JSValue) (e : String) (hr : runSQL g.sql = .ok r)
    (ht : r.truthy = true) (he : O.embed (question ++ " " ++ g.sql) = .error e) :
    ask O (.ok g) true runSQL true question st k =
      (⟨some g.sql, none, g.explanation⟩, st, k) := by
  simp [ask, hr, ht, addQuestionSQLIz, he]

/-- Concrete instantiation of `ask_autoTrainFailure_spec` discharging
its hypotheses with a truthy execution result and a failing embedding
provider. -/
theorem ask_autoTrainFailure_spec_witness :
    ask oracleFail (.ok ⟨"SELECT 1;", some "an explanation"⟩) true
      (fun _ => .ok (.vArr [])) true "how many users" (MemStore.mk [] [] []) 0 =
      (⟨some "SELECT 1;", none, some "an explanation"⟩, MemStore.mk [] [] [], 0) :=
  ask_autoTrainFailure_spec oracleFail ⟨"SELECT 1;", some "an explanation"⟩
    (fun _ => .ok (.vArr [])) "how many users" (MemStore.mk [] [] []) 0
    (.vArr []) "embedding failed" rfl rfl rfl

/-- Claim C10: after a successful execution, `ask` attempts the
auto-train write exactly when the result is truthy and `autoTrain`
holds: a falsy result (`null`, `undefined`, `0`, the empty string,
`false`) or a disabled `autoTrain` leaves the store unchanged, while a
truthy result — including an empty array — with `autoTrain` on and a
working embedding provider appends the `(question, sql)` pair to the
store. -/
theorem ask_autoTrain_condition_spec :
    (∀ (O : Oracles) (g : GenResult) (runSQL : String → Except String JSValue)
       (autoTrain : Bool) (question : String) (st : MemStore) (k : Nat) (r : JSValue),
      runSQL g.sql = .ok r → (r.truthy = false ∨ autoTrain = false) →
      ask O (.ok g) true runSQL autoTrain question st k =
        (⟨some g.sql, some r, g.explanation⟩, st, k)) ∧
    (∀ (O : Oracles) (g : GenResult) (runSQL : String → Except String JSValue)
       (question : String) (st : MemStore) (k : Nat) (r : JSValue) (emb : List ℝ),
      runSQL g.sql = .ok r → r.truthy = true →
      O.embed (question ++ " " ++ g.sql) = .ok emb →
      ask O (.ok g) true runSQL true question st k =
        (⟨some g.sql, some r, g.explanation⟩,
         st.addQuestionSQL question g.sql emb (O.ids "qs" k), k + 1)) ∧
    JSValue.truthy .vNull = false ∧
    JSValue.truthy .vUndefined = false ∧
    JSValue.truthy (.vNum 0) = false ∧
    JSValue.truthy (.vStr "") = false ∧
    JSValue.truthy (.vBool false) = false ∧
    JSValue.truthy (.vArr []) = true := by
  refine ⟨?_, ?_, rfl, rfl, by decide, rfl, rfl, rfl⟩
  · intro O g runSQL autoTrain question st k r hr hf
    rcases hf with hf | hf <;> simp [ask, hr, hf]
  · intro O g runSQL question st k r emb hr ht he
    simp [ask, hr, ht, addQuestionSQLIz, he]

/-- Concrete instantiation of `ask_autoTrain_condition_spec`
discharging its hypotheses: a falsy `null` result stores nothing, and a
truthy empty-array result appends the pair. -/
theorem ask_autoTrain_condition_spec_witness :
    ask oracleOK (.ok ⟨"SELECT 1;", none⟩) true (fun _ => .ok .vNull) true "q1"
      (MemStore.mk [] [] []) 0 =
      (⟨some "SELECT 1;", some .vNull, none⟩, MemStore.mk [] [] [], 0) ∧
    ask oracleOK (.ok ⟨"SELECT 1;", none⟩) true (fun _ => .ok (.vArr [])) true "q1"
      (MemStore.mk [] [] []) 0 =
      (⟨some "SELECT 1;", some (.vArr []), none⟩,
       MemStore.mk [⟨some "qs-0", "q1", "SELECT 1;", some [1]⟩] [] [], 1) :=
  ⟨ask_autoTrain_condition_spec.1 oracleOK ⟨"SELECT 1;", none⟩ (fun _ => .ok .vNull)
      true "q1" (MemStore.mk [] [] []) 0 .vNull rfl (Or.inl rfl),
   ask_autoTrain_condition_spec.2.1 oracleOK ⟨"SELECT 1;", none⟩ (fun _ => .ok (.vArr []))
      "q1" (MemStore.mk [] [] []) 0 (.vArr []) [1] rfl rfl rfl⟩

/-- Type tag of one training-plan item (`'ddl' | 'question-sql' |
'documentation'`). -/
inductive TrainingPlanItemType where
  | ddl
  | questionSQL
  | documentation

/-- One item of a training plan (interface `TrainingPlanItem`). -/
structure TrainingPlanItem where
  type : TrainingPlanItemType
  group : Option String
  name : String
  value : String

/-- Declarative replay log (interface `TrainingPlan`). -/
structure TrainingPlan where
  items : List TrainingPlanItem

/-- Argument record of `IzumiBase.train`; every field is optional. -/
structure TrainParams where
  question : Option String
  sql : Option String
  ddl : Option String
  documentation : Option String
  plan : Option TrainingPlan

/-- JavaScript truthiness of an optional string field: absent
(`undefined`) and the empty string are falsy. -/
def strTruthy : Option String → Bool
  | some s => s != ""
  | none => false

/-- Replay loop of the `plan` branch of `IzumiBase.train`: each item is
dispatched on its type and the returned status strings (the new ids)
are concatenated with newlines; a failing add rejects the whole call
(the source `await`s each add inside `train` without catching). -/
def trainPlanItems (O : Oracles) : List TrainingPlanItem → String → MemStore → Nat →
    Except String (String × MemStore × Nat)
  | [], acc, st, k => .ok (acc, st, k)
  | it :: rest, acc, st, k =>
    match it.type with
    | .ddl =>
      match addDDLIz O it.value st k with
      | .error e => .error e
      | .ok (msg, st2, k2) => trainPlanItems O rest (acc ++ msg ++ "\n") st2 k2
    | .documentation =>
      match addDocumentationIz O it.value none st k with
      | .error e => .error e
      | .ok (msg, st2, k2) => trainPlanItems O rest (acc ++ msg ++ "\n") st2 k2
    | .questionSQL =>
      match addQuestionSQLIz O it.name it.value st k with
      | .error e => .error e
      | .ok (msg, st2, k2) => trainPlanItems O rest (acc ++ msg ++ "\n") st2 k2

/-- Embedding of `IzumiBase.train`: reject when a (truthy) question
comes without a SQL text; else dispatch in fixed priority order on
documentation, sql (synthesizing a question through the model when none
was given), ddl, then plan; reject when nothing was provided. -/
def train (O : Oracles) (p : TrainParams) (st : MemStore) (k : Nat) :
    Except String (String × MemStore × Nat) :=
  if strTruthy p.question && !strTruthy p.sql then
    .error "Please also provide a SQL query when training with a question"
  else if strTruthy p.documentation then
    addDocumentationIz O (p.documentation.getD "") none st k
  else if strTruthy p.sql then
    match (if strTruthy p.question then Except.ok (p.question.getD "")
           else O.genQuestion (p.sql.getD "")) with
    | .error e => .error e
    | .ok q => addQuestionSQLIz O q (p.sql.getD "") st k
  else if strTruthy p.ddl then
    addDDLIz O (p.ddl.getD "") st k
  else
    match p.plan with
    | some plan => trainPlanItems O plan.items "" st k
    | none => .error "Please provide at least one of: question+sql, ddl, documentation, or plan"

/-- Claim C2, counterexample: a call carrying both a documentation text
and a question but no sql throws the question-without-sql error instead
of succeeding — the documentation branch is not reached, so `train`
does not succeed for every argument that includes a documentation
field. -/
theorem train_documentation_counterexample :
    train oracleOK ⟨some "count users", none, some "CREATE TABLE t (x INT);",
        some "users are people", none⟩ (MemStore.mk [] [] []) 0 =
      .error "Please also provide a SQL query when training with a question" := rfl

/-- Claim C2, amended: whenever the argument carries a non-empty
documentation text, does not carry a truthy question without a truthy
sql (that combination throws before any branch is reached), and the
embedding call succeeds, `train` succeeds and adds exactly one
documentation entry, ignoring all other fields: the question/SQL and
DDL collections are returned unchanged. -/
theorem train_documentation_spec (O : Oracles) (p : TrainParams) (st : MemStore)
    (k : Nat) (doc : String) (emb : List ℝ) (hdoc : p.documentation = some doc)
    (hne : doc ≠ "")
    (hqs : ¬(strTruthy p.question = true ∧ strTruthy p.sql = false))
    (hemb : O.embed doc = .ok emb) :
    train O p st k = .ok (O.ids "doc" k,
      { st with documentationItems :=
          st.documentationItems ++ [⟨some (O.ids "doc" k), doc, none, some emb⟩] },
      k + 1) := by
  have h1 : (strTruthy p.question && !strTruthy p.sql) = false := by
    cases hq : strTruthy p.question <;> cases hs : strTruthy p.sql <;> simp_all
  have h2 : strTruthy p.documentation = true := by
    rw [hdoc]
    simpa [strTruthy] using hne
  rw [train, if_neg (by simp [h1]), if_pos h2, hdoc]
  simp [addDocumentationIz, hemb, MemStore.addDocumentation]

/-- Concrete instantiation of `train_documentation_spec` discharging
its hypotheses: documentation together with an (ignored) ddl field adds
exactly one documentation entry and leaves the other collections
empty. -/
theorem train_documentation_spec_witness :
    train oracleOK ⟨none, none, some "CREATE TABLE t (x INT);", some "users are people", none⟩
      (MemStore.mk [] [] []) 0 =
      .ok ("doc-0",
        MemStore.mk [] [] [⟨some "doc-0", "users are people", none, some [1]⟩], 1) :=
  train_documentation_spec oracleOK
    ⟨none, none, some "CREATE TABLE t (x INT);", some "users are people", none⟩
    (MemStore.mk [] [] []) 0 "users are people" [1] rfl (by decide) (by simp [strTruthy]) rfl

/-- Case-insensitive prefix test on character lists (the `i` flag of
the extraction regexes). -/
def lpfxCI : List Char → List Char → Bool
  | [], _ => true
  | _ :: _, [] => false
  | p :: ps, c :: cs => (p.toLower == c.toLower) && lpfxCI ps cs

/-- Word character of the regex `\b` boundary (`[A-Za-z0-9_]`). -/
def isWordChar (c : Char) : Bool := c.isAlphanum || c == '_'

/-- Whitespace class `\s` of the extraction regexes (ASCII part). -/
def jsSpace (c : Char) : Bool :=
  c == ' ' || c == '\t' || c == '\n' || c == '\r' || c == '\x0b' || c == '\x0c'

/-- Substring of `s` from index `a` (inclusive) to `b` (exclusive). -/
def sliceCL (s : List Char) (a b : Nat) : List Char := (s.drop a).take (b - a)

/-- First index at or after `start` (within `fuel` candidates)
satisfying `ok`: the regex engine's left-to-right scan over starting
positions. -/
def firstIdx (ok : Nat → Bool) : Nat → Nat → Option Nat
  | _, 0 => none
  | start, fuel + 1 => if ok start then some start else firstIdx ok (start + 1) fuel

/-- Length of the maximal run of `\s` characters starting at `a`. -/
def wsRun (s : List Char) : Nat → Nat → Nat
  | _, 0 => 0
  | a, fuel + 1 =>
      if a < s.length && jsSpace (s.getD a ' ') then 1 + wsRun s (a + 1) fuel else 0

/-- Greatest index `j` in `[a, a + m)` holding a newline, if any: the
position the greedy `\s*` of `` ```sql\s*\n `` backtracks to. -/
def lastNlIn (s : List Char) (a : Nat) : Nat → Option Nat
  | 0 => none
  | m + 1 => if s.getD (a + m) ' ' == '\n' then some (a + m) else lastNlIn s a m

/-- Word boundary `\b` in front of index `p`: start of input or a
non-word character before `p`. -/
def boundaryBefore (s : List Char) (p : Nat) : Bool :=
  p == 0 || !(isWordChar (s.getD (p - 1) ' '))

/-- Word boundary `\b` after a keyword ending at index `p`: end of
input or a non-word character at `p`. -/
def boundaryAfterKw (s : List Char) (p : Nat) : Bool :=
  p == s.length || !(isWordChar (s.getD p ' '))

/-- Attempt of the fenced-block regex `` ```lab\s*\n(.*?)``` ``
(flags `is`) anchored at start position `p`: returns the content start
`j + 1` and the content end `q` (the lazy group runs to the first
closing fence). -/
def matchFenceAt (lab : List Char) (s : List Char) (p : Nat) : Option (Nat × Nat) :=
  if lpfxCI ("```".data ++ lab) (s.drop p) then
    let a := p + 3 + lab.length
    match lastNlIn s a (wsRun s a (s.length + 1)) with
    | none => none
    | some j =>
        match firstIdx (fun q => lpfxCI "```".data (s.drop q)) (j + 1) (s.length + 1) with
        | none => none
        | some q => some (j + 1, q)
  else none

/-- Leftmost full match of the fenced-block regex: whole match and
capture group. -/
def matchFence (lab : List Char) (s : List Char) : Option (List Char × List Char) :=
  match firstIdx (fun p => (matchFenceAt lab s p).isSome) 0 (s.length + 1) with
  | none => none
  | some p =>
      match matchFenceAt lab s p with
      | some (c, q) => some (sliceCL s p (q + 3), sliceCL s c q)
      | none => none

/-- Attempt of `\bCREATE\s+TABLE\b.*?\bAS\b.*?;` (flags `is`) anchored
at `p`: returns the end index of the whole match. -/
def matchCreateAt (s : List Char) (p : Nat) : Option Nat :=
  if boundaryBefore s p && lpfxCI "create".data (s.drop p) then
    let a := p + 6
    let m := wsRun s a (s.length + 1)
    if (1 ≤ m) && lpfxCI "table".data (s.drop (a + m)) && boundaryAfterKw s (a + m + 5) then
      match firstIdx (fun q => boundaryBefore s q && lpfxCI "as".data (s.drop q) &&
          boundaryAfterKw s (q + 2)) (a + m + 5) (s.length + 1) with
      | none => none
      | some q =>
          match firstIdx (fun r => decide (r < s.length) && (s.getD r ' ' == ';'))
              (q + 2) (s.length + 1) with
          | none => none
          | some r => some (r + 1)
    else none
  else none

/-- Attempt of `\bWITH\b .*?;` (flags `is`, literal space after the
keyword) anchored at `p`. -/
def matchWithAt (s : List Char) (p : Nat) : Option Nat :=
  if boundaryBefore s p && lpfxCI "with".data (s.drop p) &&
      decide (p + 4 < s.length) && (s.getD (p + 4) ' ' == ' ') then
    match firstIdx (fun r => decide (r < s.length) && (s.getD r ' ' == ';'))
        (p + 5) (s.length + 1) with
    | none => none
    | some r => some (r + 1)
  else none

/-- Attempt of `\bSELECT\b .*?;` (flags `is`, literal space after the
keyword) anchored at `p`. -/
def matchSelectAt (s : List Char) (p : Nat) : Option Nat :=
  if boundaryBefore s p && lpfxCI "select".data (s.drop p) &&
      decide (p + 6 < s.length) && (s.getD (p + 6) ' ' == ' ') then
    match firstIdx (fun r => decide (r < s.length) && (s.getD r ' ' == ';'))
        (p + 7) (s.length + 1) with
    | none => none
    | some r => some (r + 1)
  else none

/-- Leftmost whole match of a group-less pattern given its anchored
attempt function. -/
def matchPatWhole (mAt : Nat → Option Nat) (s : List Char) : Option (List Char) :=
  match firstIdx (fun p => (mAt p).isSome) 0 (s.length + 1) with
  | none => none
  | some p =>
      match mAt p with
      | some e => some (sliceCL s p e)
      | none => none

/-- JavaScript `String.prototype.trim` on character lists (ASCII
whitespace). -/
def trimJs (s : List Char) : List Char :=
  ((s.dropWhile jsSpace).reverse.dropWhile jsSpace).reverse

/-- Return value construction of `extractSQL`:
`match[1]?.trim() || match[0].trim()` — the trimmed capture group when
it exists and is non-empty, else the trimmed whole match. -/
def emitMatch (whole : List Char) (grp : Option (List Char)) : List Char :=
  match grp with
  | some g => if trimJs g != [] then trimJs g else trimJs whole
  | none => trimJs whole

/-- Embedding of `IzumiBase.extractSQL` on character lists: try the
five patterns in their fixed order — sql-labelled fence, any fence,
`CREATE TABLE ... AS ... ;`, `WITH ... ;`, `SELECT ... ;` — first match
wins; with no match, the whole trimmed response. -/
def extractSQLChars (s : List Char) : List Char :=
  match matchFence "sql".data s with
  | some (w, g) => emitMatch w (some g)
  | none =>
    match matchFence [] s with
    | some (w, g) => emitMatch w (some g)
    | none =>
      match matchPatWhole (matchCreateAt s) s with
      | some w => emitMatch w none
      | none =>
        match matchPatWhole (matchWithAt s) s with
        | some w => emitMatch w none
        | none =>
          match matchPatWhole (matchSelectAt s) s with
          | some w => emitMatch w none
          | none => trimJs s

/-- Embedding of `IzumiBase.extractSQL` on strings. -/
def extractSQL (llmResponse : String) : String :=
  ⟨extractSQLChars llmResponse.data⟩

/-- Splitting on newlines: `response.split('\n')` of the source. -/
def splitNl : List Char → List (List Char)
  | [] => [[]]
  | c :: rest =>
      if c == '\n' then [] :: splitNl rest
      else
        match splitNl rest with
        | l :: ls => (c :: l) :: ls
        | [] => [[c]]

/-- Exact (case-sensitive) prefix test on character lists
(`String.prototype.startsWith`). -/
def startsWithCL : List Char → List Char → Bool
  | [], _ => true
  | _ :: _, [] => false
  | p :: ps, c :: cs => (p == c) && startsWithCL ps cs

/-- JavaScript `toLowerCase`, modelled as the character-wise lowercase
map. -/
def lowerS (s : String) : String := ⟨s.data.map Char.toLower⟩

/-- Line scanner of `IzumiBase.parseGeneratedQuestions`: a line starting
with the `Question:` label flushes the previous complete pair and starts
a new one; a line starting with `SQL:` starts the SQL capture; any other
non-empty line while a SQL capture is open is appended to the SQL
(emptiness of the accumulators is JavaScript string truthiness). -/
def parseGQGo : List (List Char) → List Char → List Char → List QuestionSQLPair
  | [], curQ, curS =>
      if curQ != [] && curS != [] then [⟨none, ⟨trimJs curQ⟩, ⟨trimJs curS⟩, none⟩] else []
  | line :: rest, curQ, curS =>
      if startsWithCL "Question:".data line then
        (if curQ != [] && curS != [] then [⟨none, ⟨trimJs curQ⟩, ⟨trimJs curS⟩, none⟩]
         else []) ++ parseGQGo rest (trimJs (line.drop 9)) []
      else if startsWithCL "SQL:".data line then
        parseGQGo rest curQ (trimJs (line.drop 4))
      else if curS != [] && trimJs line != [] then
        parseGQGo rest curQ (curS ++ '\n' :: trimJs line)
      else
        parseGQGo rest curQ curS

/-- Embedding of `IzumiBase.parseGeneratedQuestions`: split the model
response on newlines and scan. -/
def parseGeneratedQuestions (response : String) : List QuestionSQLPair :=
  parseGQGo (splitNl response.data) [] []

/-- Inner deduplication loop of `generateTrainingDataFromSchema`: skip
every pair whose lowercased question is already in the seen set,
otherwise keep it and record its lowercased question. -/
def dedupInner : List QuestionSQLPair → List String → List QuestionSQLPair →
    List String × List QuestionSQLPair
  | [], seen, acc => (seen, acc)
  | q :: qs, seen, acc =>
      if lowerS q.question ∈ seen then dedupInner qs seen acc
      else dedupInner qs (lowerS q.question :: seen) (acc ++ [q])

/-- Outer per-category loop of `generateTrainingDataFromSchema`: a
failing category model call is caught and logged and contributes
nothing; a successful response is parsed and deduplicated against the
accumulated seen set. -/
def dedupOuter : List (Except String String) → List String → List QuestionSQLPair →
    List String × List QuestionSQLPair
  | [], seen, acc => (seen, acc)
  | .error _ :: rest, seen, acc => dedupOuter rest seen acc
  | .ok r :: rest, seen, acc =>
      dedupOuter rest (dedupInner (parseGeneratedQuestions r) seen acc).1
        (dedupInner (parseGeneratedQuestions r) seen acc).2

/-- The `generatedQuestions` list of one
`generateTrainingDataFromSchema` run: the seen set starts as the
lowercased questions already stored, the accumulator empty; `responses`
are the per-category model outcomes. -/
def generatedQuestionsOf (st : MemStore) (responses : List (Except String String)) :
    List QuestionSQLPair :=
  (dedupOuter responses (st.questionSQLPairs.map (fun p => lowerS p.question)) []).2

/-- Sequential training loop of `generateTrainingDataFromSchema`: each
accepted pair is trained through `addQuestionSQL`; a per-pair failure is
caught, logged and skipped. -/
def trainLoop (O : Oracles) : List QuestionSQLPair → MemStore → Nat → MemStore × Nat
  | [], st, k => (st, k)
  | q :: rest, st, k =>
    match addQuestionSQLIz O q.question q.sql st k with
    | .ok (_, st2, k2) => trainLoop O rest st2 k2
    | .error _ => trainLoop O rest st k

theorem dedupInner_spec (E : List String) :
    ∀ (qs : List QuestionSQLPair) (seen : List String) (acc : List QuestionSQLPair),
      (∀ e ∈ E, e ∈ seen) →
      (∀ q ∈ acc, lowerS q.question ∈ seen) →
      ((acc.map (fun q => lowerS q.question)).Nodup) →
      (∀ q ∈ acc, lowerS q.question ∉ E) →
      (∀ e ∈ E, e ∈ (dedupInner qs seen acc).1) ∧
      (∀ q ∈ (dedupInner qs seen acc).2, lowerS q.question ∈ (dedupInner qs seen acc).1) ∧
      (((dedupInner qs seen acc).2.map (fun q => lowerS q.question)).Nodup) ∧
      (∀ q ∈ (dedupInner qs seen acc).2, lowerS q.question ∉ E) := by
  intro qs
  induction qs with
  | nil => intro seen acc hE hacc hnd hnE; exact ⟨hE, hacc, hnd, hnE⟩
  | cons q qs ih =>
    intro seen acc hE hacc hnd hnE
    by_cases hmem : lowerS q.question ∈ seen
    · simpa [dedupInner, hmem] using ih seen acc hE hacc hnd hnE
    · have hE' : ∀ e ∈ E, e ∈ lowerS q.question :: seen :=
        fun e he => List.mem_cons_of_mem _ (hE e he)
      have hacc' : ∀ p ∈ acc ++ [q], lowerS p.question ∈ lowerS q.question :: seen := by
        intro p hp
        rcases List.mem_append.mp hp with hp | hp
        · exact List.mem_cons_of_mem _ (hacc p hp)
        · simp at hp
          subst hp
          exact List.mem_cons_self _ _
      have hnd' : ((acc ++ [q]).map (fun p => lowerS p.question)).Nodup := by
        rw [List.map_append]
        refine List.Nodup.append hnd (by simp) ?_
        intro x hx hx2
        simp at hx2
        rcases List.mem_map.mp hx with ⟨p, hp, hpx⟩
        exact hmem (hx2 ▸ hpx ▸ hacc p hp)
      have hnE' : ∀ p ∈ acc ++ [q], lowerS p.question ∉ E := by
        intro p hp
        rcases List.mem_append.mp hp with hp | hp
        · exact hnE p hp
        · simp at hp
          subst hp
          exact fun hin => hmem (hE _ hin)
      simpa [dedupInner, hmem] using ih _ _ hE' hacc' hnd' hnE'

theorem dedupOuter_spec (E : List String) :
    ∀ (rs : List (Except String String)) (seen : List String) (acc : List QuestionSQLPair),
      (∀ e ∈ E, e ∈ seen) →
      (∀ q ∈ acc, lowerS q.question ∈ seen) →
      ((acc.map (fun q => lowerS q.question)).Nodup) →
      (∀ q ∈ acc, lowerS q.question ∉ E) →
      (((dedupOuter rs seen acc).2.map (fun q => lowerS q.question)).Nodup) ∧
      (∀ q ∈ (dedupOuter rs seen acc).2, lowerS q.question ∉ E) := by
  intro rs
  induction rs with
  | nil => intro seen acc hE hacc hnd hnE; exact ⟨hnd, hnE⟩
  | cons r rest ih =>
    intro seen acc hE hacc hnd hnE
    cases r with
    | error e => simpa [dedupOuter] using ih seen acc hE hacc hnd hnE
    | ok resp =>
      obtain ⟨hE2, hacc2, hnd2, hnE2⟩ :=
        dedupInner_spec E (parseGeneratedQuestions resp) seen acc hE hacc hnd hnE
      simpa [dedupOuter] using ih _ _ hE2 hacc2 hnd2 hnE2

theorem trainLoop_appends (O : Oracles) :
    ∀ (l : List QuestionSQLPair) (st : MemStore) (k : Nat),
      ∃ newItems : List QuestionSQLPair,
        (trainLoop O l st k).1.questionSQLPairs = st.questionSQLPairs ++ newItems ∧
        (newItems.map (fun q => q.question)).Sublist (l.map (fun q => q.question)) := by
  intro l
  induction l with
  | nil => intro st k; exact ⟨[], by simp [trainLoop], by simp⟩
  | cons q rest ih =>
    intro st k
    cases he : O.embed (q.question ++ " " ++ q.sql) with
    | error e =>
      obtain ⟨new, h1, h2⟩ := ih st k
      exact ⟨new, by simpa [trainLoop, addQuestionSQLIz, he] using h1, h2.cons _⟩
    | ok emb =>
      obtain ⟨new, h1, h2⟩ :=
        ih (st.addQuestionSQL q.question q.sql emb (O.ids "qs" k)) (k + 1)
      refine ⟨⟨some (O.ids "qs" k), q.question, q.sql, some emb⟩ :: new, ?_, ?_⟩
      · rw [show trainLoop O (q :: rest) st k =
          trainLoop O rest (st.addQuestionSQL q.question q.sql emb (O.ids "qs" k)) (k + 1) by
            simp [trainLoop, addQuestionSQLIz, he]]
        rw [h1]
        simp [MemStore.addQuestionSQL]
      · simpa using h2.cons₂ q.question

/-- Claim C9: in a `generateTrainingDataFromSchema` run (per-category
model outcomes `responses`, per-pair training through `trainLoop`), the
pairs actually added to the store are a subsequence of the deduplicated
`generatedQuestions`; no generated — hence no trained — question's
lowercase equals an already-stored question's lowercase, and the
generated questions are pairwise distinct after lowercasing (so each
question is trained at most once, also across categories). -/
theorem generateTrainingData_dedup_spec (O : Oracles) (st : MemStore) (k : Nat)
    (responses : List (Except String String)) :
    ∃ newItems : List QuestionSQLPair,
      ((trainLoop O (generatedQuestionsOf st responses) st k).1.questionSQLPairs =
        st.questionSQLPairs ++ newItems) ∧
      ((newItems.map (fun q => q.question)).Sublist
        ((generatedQuestionsOf st responses).map (fun q => q.question))) ∧
      (∀ q ∈ generatedQuestionsOf st responses,
        lowerS q.question ∉ st.questionSQLPairs.map (fun p => lowerS p.question)) ∧
      (((generatedQuestionsOf st responses).map (fun q => lowerS q.question)).Nodup) ∧
      (∀ q ∈ newItems,
        lowerS q.question ∉ st.questionSQLPairs.map (fun p => lowerS p.question)) ∧
      ((newItems.map (fun q => lowerS q.question)).Nodup) := by
  obtain ⟨hnd, hnE⟩ := dedupOuter_spec (st.questionSQLPairs.map (fun p => lowerS p.question))
    responses (st.questionSQLPairs.map (fun p => lowerS p.question)) []
    (fun e he => he) (by simp) (by simp) (by simp)
  obtain ⟨new, h1, h2⟩ := trainLoop_appends O (generatedQuestionsOf st responses) st k
  have hsubLower : (new.map (fun q => lowerS q.question)).Sublist
      ((generatedQuestionsOf st responses).map (fun q => lowerS q.question)) := by
    have := h2.map lowerS
    simpa [Function.comp] using this
  refine ⟨new, h1, h2, hnE, hnd, ?_, hsubLower.nodup hnd⟩
  intro q hq
  have : lowerS q.question ∈
      (generatedQuestionsOf st responses).map (fun p => lowerS p.question) :=
    hsubLower.subset (List.mem_map_of_mem _ hq)
  rcases List.mem_map.mp this with ⟨p, hp, hpe⟩
  exact hpe ▸ hnE p hp


/-- Claim C3: `extractSQL` tries its five patterns in fixed priority
order with case-insensitive dot-matches-newline matching and the first
match wins: when no pattern matches, the whole trimmed response is
returned (first conjunct, for every input); a bare `SELECT ... ;` inside
plain prose is returned as that statement; a ```sql fenced block is
preferred over a bare `SELECT` in the surrounding prose; an unlabelled
fence, a `CREATE TABLE ... AS ... ;` and a `WITH ... ;` are matched by
the intermediate patterns, with `WITH` taking priority over an earlier
bare `SELECT`; matching is case-insensitive both for the fence label and
for the keywords. -/
theorem extractSQL_spec :
    (∀ s : List Char,
      matchFence "sql".data s = none → matchFence [] s = none →
      matchPatWhole (matchCreateAt s) s = none →
      matchPatWhole (matchWithAt s) s = none →
      matchPatWhole (matchSelectAt s) s = none →
      extractSQLChars s = trimJs s) ∧
    extractSQL "Sure!\nSELECT * FROM users;\nDone." = "SELECT * FROM users;" ∧
    extractSQL "Here:\n```sql\nSELECT a FROM t1;\n```\nAlso SELECT b FROM t2; end." =
      "SELECT a FROM t1;" ∧
    extractSQL "```\nSELECT c FROM t3;\n```" = "SELECT c FROM t3;" ∧
    extractSQL "First SELECT 1; then WITH c AS (SELECT 2 FROM t) SELECT x FROM c;" =
      "WITH c AS (SELECT 2 FROM t) SELECT x FROM c;" ∧
    extractSQL "CREATE TABLE t2 AS SELECT a FROM t1; trailing" =
      "CREATE TABLE t2 AS SELECT a FROM t1;" ∧
    extractSQL "```SQL\nselect U from V;\n```" = "select U from V;" ∧
    extractSQL "lower select x from t; done" = "select x from t;" ∧
    extractSQL "  no sql here  " = "no sql here" := by
  refine ⟨?_, rfl, rfl, rfl, rfl, rfl, rfl, rfl, rfl⟩
  intro s h1 h2 h3 h4 h5
  rw [extractSQLChars, h1, h2, h3, h4, h5]

/-- Concrete instantiation of `extractSQL_spec` discharging the
hypotheses of its fallback clause: an input matching none of the five
patterns is returned whole, trimmed. -/
theorem extractSQL_spec_witness :
    extractSQLChars " hello there ".data = trimJs " hello there ".data :=
  extractSQL_spec.1 " hello there ".data rfl rfl rfl rfl rfl

/-- Concrete instantiation of `generateTrainingData_dedup_spec`: in a
run against a store already holding "Count Users", with one category
response repeating that question (differently cased) and adding two
copies of a new one, the deduplicated lowercased generated questions
are pairwise distinct. -/
theorem generateTrainingData_dedup_spec_witness :
    ((generatedQuestionsOf (MemStore.mk [⟨none, "Count Users", "SELECT 1;", none⟩] [] [])
        [Except.ok "Question: count users\nSQL: SELECT 9;\nQuestion: New Q\nSQL: SELECT 2;",
         Except.ok "Question: NEW q\nSQL: SELECT 3;"]).map
      (fun q => lowerS q.question)).Nodup := by
  obtain ⟨new, h1, h2, h3, h4, h5, h6⟩ :=
    generateTrainingData_dedup_spec oracleOK
      (MemStore.mk [⟨none, "Count Users", "SELECT 1;", none⟩] [] []) 0
      [Except.ok "Question: count users\nSQL: SELECT 9;\nQuestion: New Q\nSQL: SELECT 2;",
       Except.ok "Question: NEW q\nSQL: SELECT 3;"]
  exact h4
